import Mathlib

/-!
Verification development for the MQTT v3 broker core
(repository files: src/message/mod.rs, src/message/v3.rs,
src/handle/v3_server_handle.rs).

Conventions of the shallow embedding:
* Rust enums from tools/protocol.rs are not under src/; they are modelled
  from the spec (section 3): QoS values 0, 1, 2 plus the Failure sentinel
  0x80, boolean-like flag enums with Disable and Enable variants.
* Byte buffers are List Nat, with each element understood modulo 256.
* The cached wire-encoding field bytes of a message struct is kept only
  where the handler reads it (PublishMessage, and the fixed 2-byte
  buffers of Pingreq, Pingresp and Disconnect); elsewhere it is a
  memoized output of packet/v3_packet.rs, which is not under src/, and
  is omitted from the embedding.
* A Rust computation that can panic (a call to Option::unwrap on a value
  that may be None) is embedded as a function returning Option, where
  none is the panic outcome.
-/

set_option autoImplicit false

namespace MqttDemo

/-- Modelled from the spec: packet type tags (tools/types.rs is not under
src/).  Wire values are the MQTT-standard upper nibbles 1..14; AUTH is the
v5 tag kept for forward compatibility. -/
inductive TypeKind where
  | CONNECT | CONNACK | PUBLISH | PUBACK | PUBREC | PUBREL | PUBCOMP
  | SUBSCRIBE | SUBACK | UNSUBSCRIBE | UNSUBACK | PINGREQ | PINGRESP
  | DISCONNECT | AUTH
  deriving DecidableEq, Repr

/-- Modelled from the spec: the wire value of a packet type (the upper
nibble of the fixed-header first byte). -/
def TypeKind.nibble : TypeKind → Nat
  | .CONNECT => 1 | .CONNACK => 2 | .PUBLISH => 3 | .PUBACK => 4
  | .PUBREC => 5 | .PUBREL => 6 | .PUBCOMP => 7 | .SUBSCRIBE => 8
  | .SUBACK => 9 | .UNSUBSCRIBE => 10 | .UNSUBACK => 11 | .PINGREQ => 12
  | .PINGRESP => 13 | .DISCONNECT => 14 | .AUTH => 15

/-- Modelled from the spec: QoS levels 0, 1, 2 plus the Failure sentinel
used in SUBACK return codes (tools/protocol.rs is not under src/). -/
inductive MqttQos where
  | Qos0 | Qos1 | Qos2 | Failure
  deriving DecidableEq, Repr

/-- Modelled from the spec: the enum discriminant, also the wire byte
(Failure is 0x80). Stands for both the Rust cast as u32 and as_byte. -/
def MqttQos.asByte : MqttQos → Nat
  | .Qos0 => 0
  | .Qos1 => 1
  | .Qos2 => 2
  | .Failure => 128

/-- Modelled from the spec: DUP flag (tools/protocol.rs not under src/). -/
inductive MqttDup where
  | Disable | Enable
  deriving DecidableEq, Repr

/-- Modelled from the spec: RETAIN flag. -/
inductive MqttRetain where
  | Disable | Enable
  deriving DecidableEq, Repr

/-- Modelled from the spec: clean-session flag. -/
inductive MqttCleanSession where
  | Disable | Enable
  deriving DecidableEq, Repr

/-- Modelled from the spec: will flag. -/
inductive MqttWillFlag where
  | Disable | Enable
  deriving DecidableEq, Repr

/-- Modelled from the spec: CONNACK session-present flag. -/
inductive MqttSessionPresent where
  | Disable | Enable
  deriving DecidableEq, Repr

/-- Modelled from the spec: protocol levels 3 (v3.1), 4 (v3.1.1) and the
v5 tag kept for forward compatibility. -/
inductive MqttProtocolLevel where
  | Level3 | Level4 | Level5
  deriving DecidableEq, Repr

/-- Modelled from the spec: the MQTT variable-byte remaining-length
encoding (tools/pack_tool.rs not under src/): 7 value bits per byte,
continuation bit 0x80. -/
def encodeRemainingLength : Nat → List Nat
  | n =>
    if h : n < 128 then [n]
    else (n % 128 + 128) :: encodeRemainingLength (n / 128)
  termination_by n => n
  decreasing_by
    exact Nat.div_lt_self (Nat.lt_of_lt_of_le (by decide) (Nat.le_of_not_lt h)) (by decide)

/-- Modelled from the spec: pack_header (tools/pack_tool.rs not under
src/): fixed-header first byte from the type nibble, then the encoded
remaining length. -/
def pack_header (t : TypeKind) (len : Nat) : List Nat :=
  t.nibble * 16 :: encodeRemainingLength len

/-- ConnectMessagePayload, from src/message/mod.rs lines 156..164.
The properties field (v5 property list) is omitted: the v3 decoder never
fills it. -/
structure ConnectMessagePayload where
  client_id : String
  will_topic : Option String
  will_message : Option String
  user_name : Option String
  password : Option String
  deriving DecidableEq, Repr

/-- ConnectMessage, from src/message/v3.rs lines 107..119 (bytes cache
omitted). -/
structure ConnectMessage where
  msg_type : TypeKind
  protocol_name : String
  protocol_level : MqttProtocolLevel
  clean_session : MqttCleanSession
  will_flag : MqttWillFlag
  will_qos : MqttQos
  will_retain : MqttRetain
  keep_alive : Nat
  payload : ConnectMessagePayload
  deriving DecidableEq, Repr

/-- ConnackMessage, from src/message/v3.rs lines 184..190 (bytes cache
omitted). -/
structure ConnackMessage where
  msg_type : TypeKind
  session_present : MqttSessionPresent
  return_code : Nat
  deriving DecidableEq, Repr

/-- SubscribeMessage, from src/message/v3.rs lines 232..239 (bytes cache
omitted). -/
structure SubscribeMessage where
  msg_type : TypeKind
  message_id : Nat
  topic : String
  qos : MqttQos
  deriving DecidableEq, Repr

/-- SubackMessage, from src/message/v3.rs lines 267..273 (bytes cache
omitted). -/
structure SubackMessage where
  msg_type : TypeKind
  message_id : Nat
  codes : List Nat
  deriving DecidableEq, Repr

/-- UnsubscribeMessage, from src/message/v3.rs lines 329..335 (bytes
cache omitted). -/
structure UnsubscribeMessage where
  msg_type : TypeKind
  message_id : Nat
  topic : String
  deriving DecidableEq, Repr

/-- UnsubackMessage, from src/message/v3.rs lines 362..367 (bytes cache
omitted). -/
structure UnsubackMessage where
  msg_type : TypeKind
  message_id : Nat
  deriving DecidableEq, Repr

/-- PublishMessage, from src/message/v3.rs lines 399..409.  The bytes
cache is kept: the handler reads it in the BroadcastEvent arm
(content.bytes.as_ref().unwrap()). -/
structure PublishMessage where
  msg_type : TypeKind
  message_id : Nat
  topic : String
  dup : MqttDup
  qos : MqttQos
  retain : MqttRetain
  msg_body : String
  bytes : Option (List Nat)
  deriving DecidableEq, Repr

/-- PubackMessage, from src/message/v3.rs lines 446..451 (bytes cache
omitted). -/
structure PubackMessage where
  msg_type : TypeKind
  message_id : Nat
  deriving DecidableEq, Repr

/-- PubrecMessage, from src/message/v3.rs lines 483..488 (bytes cache
omitted). -/
structure PubrecMessage where
  msg_type : TypeKind
  message_id : Nat
  deriving DecidableEq, Repr

/-- PubrelMessage, from src/message/v3.rs lines 526..531 (bytes cache
omitted). -/
structure PubrelMessage where
  msg_type : TypeKind
  message_id : Nat
  deriving DecidableEq, Repr

/-- PubcompMessage, from src/message/v3.rs lines 569..574 (bytes cache
omitted). -/
structure PubcompMessage where
  msg_type : TypeKind
  message_id : Nat
  deriving DecidableEq, Repr

/-- PingreqMessage, from src/message/mod.rs lines 167..171. -/
structure PingreqMessage where
  msg_type : TypeKind
  bytes : List Nat
  deriving DecidableEq, Repr

/-- PingrespMessage, from src/message/mod.rs lines 200..204. -/
structure PingrespMessage where
  msg_type : TypeKind
  bytes : List Nat
  deriving DecidableEq, Repr

/-- Default for PingrespMessage, from src/message/mod.rs lines
224..231. -/
def PingrespMessage.default : PingrespMessage :=
  { msg_type := .PINGRESP, bytes := pack_header .PINGRESP 0 }

/-- DisconnectMessage, from src/message/v3.rs lines 612..616. -/
structure DisconnectMessage where
  msg_type : TypeKind
  bytes : List Nat
  deriving DecidableEq, Repr

/-- Default for DisconnectMessage, from src/message/v3.rs lines
630..637. -/
def DisconnectMessage.default : DisconnectMessage :=
  { msg_type := .DISCONNECT, bytes := pack_header .DISCONNECT 0 }

/-- MqttMessageV3, from src/message/v3.rs lines 12..28. -/
inductive MqttMessageV3 where
  | Connect (msg : ConnectMessage)
  | Connack (msg : ConnackMessage)
  | Publish (msg : PublishMessage)
  | Puback (msg : PubackMessage)
  | Pubrec (msg : PubrecMessage)
  | Pubrel (msg : PubrelMessage)
  | Pubcomp (msg : PubcompMessage)
  | Subscribe (msg : SubscribeMessage)
  | Suback (msg : SubackMessage)
  | Unsubscribe (msg : UnsubscribeMessage)
  | Unsuback (msg : UnsubackMessage)
  | Pingreq (msg : PingreqMessage)
  | Pingresp (msg : PingrespMessage)
  | Disconnect (msg : DisconnectMessage)
  deriving DecidableEq, Repr

/-- MqttMessageKind, from src/message/mod.rs lines 16..24. -/
inductive MqttMessageKind where
  | Response (bytes : List Nat)
  | Responses (bytes : List (List Nat))
  | RequestV3 (msg : MqttMessageV3)
  | RequestsV3 (msgs : List MqttMessageV3)
  | RequestV5
  | Exit (bytes : List Nat)
  deriving DecidableEq, Repr

/-- SubackMessage::new, from src/message/v3.rs lines 287..303: a single
return code, the requested QoS byte when the discriminant is below 3,
otherwise the Failure byte (bytes cache omitted). -/
def SubackMessage.new (message_id : Nat) (qos : MqttQos) : SubackMessage :=
  let codes := if qos.asByte < 3 then [qos.asByte] else [MqttQos.Failure.asByte]
  { msg_type := .SUBACK, message_id := message_id, codes := codes }

/-- From SubscribeMessage for SubackMessage, src/message/v3.rs lines
305..321: preserves the packet identifier; one return code computed the
same way as SubackMessage::new (bytes cache omitted). -/
def SubackMessage.fromSubscribe (smsg : SubscribeMessage) : SubackMessage :=
  let codes := if smsg.qos.asByte < 3 then [smsg.qos.asByte] else [MqttQos.Failure.asByte]
  { msg_type := .SUBACK, message_id := smsg.message_id, codes := codes }

/-- UnsubackMessage::new, from src/message/v3.rs lines 381..391 (bytes
cache omitted). -/
def UnsubackMessage.new (message_id : Nat) : UnsubackMessage :=
  { msg_type := .UNSUBACK, message_id := message_id }

/-- PubackMessage::new, from src/message/v3.rs lines 465..475 (bytes
cache omitted). -/
def PubackMessage.new (message_id : Nat) : PubackMessage :=
  { msg_type := .PUBACK, message_id := message_id }

/-- PubrecMessage::new, from src/message/v3.rs lines 502..512 (bytes
cache omitted). -/
def PubrecMessage.new (message_id : Nat) : PubrecMessage :=
  { msg_type := .PUBREC, message_id := message_id }

/-- PubrelMessage::new, from src/message/v3.rs lines 545..555 (bytes
cache omitted). -/
def PubrelMessage.new (message_id : Nat) : PubrelMessage :=
  { msg_type := .PUBREL, message_id := message_id }

/-- PubcompMessage::new, from src/message/v3.rs lines 588..598 (bytes
cache omitted). -/
def PubcompMessage.new (message_id : Nat) : PubcompMessage :=
  { msg_type := .PUBCOMP, message_id := message_id }

/-- From PubrecMessage for PubrelMessage, src/message/v3.rs lines
563..567. -/
def PubrelMessage.fromPubrec (pubrec : PubrecMessage) : PubrelMessage :=
  PubrelMessage.new pubrec.message_id

/-- From PubrelMessage for PubcompMessage, src/message/v3.rs lines
606..610. -/
def PubcompMessage.fromPubrel (pubrel : PubrelMessage) : PubcompMessage :=
  PubcompMessage.new pubrel.message_id

/-- From PubackMessage for PubrecMessage, src/message/v3.rs lines
520..524. -/
def PubrecMessage.fromPuback (puback : PubackMessage) : PubrecMessage :=
  PubrecMessage.new puback.message_id

/-! ## Fixed-header type decoding and BaseMessage -/

/-- Modelled from the spec: get_type (tools/un_pack_tool.rs not under
src/), the decode_type operation of section 4.1.  Reads the first byte,
the upper nibble names the packet type (none when the nibble is 0, the
reserved value; nibble 15 is the v5 AUTH tag); the lower bits are the
dup, qos and retain flags, extracted only for PUBLISH, for which alone
they are meaningful.  Returns the remaining bytes after the first. -/
def get_type (data : List Nat) :
    Option TypeKind × Option MqttRetain × Option MqttQos × Option MqttDup × List Nat :=
  match data with
  | [] => (none, none, none, none, [])
  | b :: rest =>
    let t : Option TypeKind :=
      match b / 16 with
      | 1 => some .CONNECT | 2 => some .CONNACK | 3 => some .PUBLISH
      | 4 => some .PUBACK | 5 => some .PUBREC | 6 => some .PUBREL
      | 7 => some .PUBCOMP | 8 => some .SUBSCRIBE | 9 => some .SUBACK
      | 10 => some .UNSUBSCRIBE | 11 => some .UNSUBACK | 12 => some .PINGREQ
      | 13 => some .PINGRESP | 14 => some .DISCONNECT | 15 => some .AUTH
      | _ => none
    if t == some TypeKind.PUBLISH then
      let retain : Option MqttRetain :=
        some (if b % 2 = 1 then .Enable else .Disable)
      let qos : Option MqttQos :=
        match b / 2 % 4 with
        | 0 => some .Qos0 | 1 => some .Qos1 | 2 => some .Qos2 | _ => some .Failure
      let dup : Option MqttDup :=
        some (if b / 8 % 2 = 1 then .Enable else .Disable)
      (t, retain, qos, dup, rest)
    else (t, none, none, none, rest)

/-- BaseMessage, from src/message/mod.rs lines 91..98. -/
structure BaseMessage where
  msg_type : TypeKind
  dup : Option MqttDup
  qos : Option MqttQos
  retain : Option MqttRetain
  bytes : List Nat
  deriving DecidableEq, Repr

/-- From Vec of u8 for BaseMessage, src/message/mod.rs lines 106..111:
decode the fixed-header type and flags, then unwrap the type.  The
unwrap panics when get_type yields no type (first-byte upper nibble 0,
or empty input); the panic outcome is none. -/
def BaseMessage.fromBytes (data : List Nat) : Option BaseMessage :=
  match get_type data with
  | (some t, retain, qos, dup, _last_bytes) =>
    some { msg_type := t, dup := dup, qos := qos, retain := retain, bytes := data }
  | (none, _, _, _, _) => none

/-! ## Subscribe decoding and dispatch -/

/-- Modelled from the spec: v3_unpacket::subscribe
(src/packet/v3_unpacket.rs not under src/), at the level of the already
framed payload: a SUBSCRIBE packet holds a 2-byte packet identifier and
a list of (topic filter, requested qos) pairs, and the codec produces
one decoded SubscribeMessage per pair, all sharing the packet
identifier. -/
def v3_unpacket_subscribe (message_id : Nat) (pairs : List (String × MqttQos)) :
    List SubscribeMessage :=
  pairs.map (fun p =>
    { msg_type := .SUBSCRIBE, message_id := message_id, topic := p.1, qos := p.2 })

/-- The SUBSCRIBE arm of MqttMessageKind::v3, src/message/mod.rs lines
64..70: wrap each decoded SubscribeMessage and collect them into one
RequestsV3 value. -/
def mqttMessageKind_v3_subscribe (message_id : Nat) (pairs : List (String × MqttQos)) :
    MqttMessageKind :=
  MqttMessageKind.RequestsV3
    ((v3_unpacket_subscribe message_id pairs).map MqttMessageV3.Subscribe)

/-- Modelled from the spec: the SUBSCRIBE batch handling of section 4.5
(the response-producing layer around the Handler is not under src/): for
the batch of decoded SUBSCRIBE requests of one packet, collect each
granted return code, via the From conversion of src/message/v3.rs, into
a single SUBACK in the original order. -/
def handle_subscribe_batch (message_id : Nat) (msgs : List SubscribeMessage) :
    SubackMessage :=
  { msg_type := .SUBACK
    message_id := message_id
    codes := (msgs.map (fun m => (SubackMessage.fromSubscribe m).codes)).flatten }

/-! ## Session -/

/-- Modelled from the spec: ServerSession (src/session.rs not under
src/), section 4.2: per-client state.  The outbound event sender is a
channel and is not part of the value model.  The fields are exactly the
ones the handler in src/handle/v3_server_handle.rs reads or writes. -/
structure ServerSession where
  client_id : String
  protocol_name : Option String
  protocol_level : Option MqttProtocolLevel
  will_flag : MqttWillFlag
  will_qos : MqttQos
  will_retain : MqttRetain
  will_topic : String
  will_message : Option String
  clean_session : Option MqttCleanSession
  keep_alive : Nat
  deriving DecidableEq, Repr

/-- Modelled from the spec: ServerSession::new, section 4.2: an
uninitialized session. -/
def ServerSession.new : ServerSession :=
  { client_id := "", protocol_name := none, protocol_level := none
    will_flag := .Disable, will_qos := .Qos0, will_retain := .Disable
    will_topic := "", will_message := none, clean_session := none
    keep_alive := 0 }

/-- Modelled from the spec: Session::init_protocol, section 4.2: record
the protocol name and level from CONNECT. -/
def ServerSession.init_protocol (s : ServerSession) (name : String)
    (level : MqttProtocolLevel) : ServerSession :=
  { s with protocol_name := some name, protocol_level := some level }

/-- Modelled from the spec: Session::init, section 4.2, with the exact
argument list the handler passes (src/handle/v3_server_handle.rs lines
107..114): client id, the three will flags and the two unwrapped will
strings. -/
def ServerSession.init (s : ServerSession) (client_id : String)
    (will_flag : MqttWillFlag) (will_qos : MqttQos) (will_retain : MqttRetain)
    (will_topic : String) (will_message : String) : ServerSession :=
  { s with client_id := client_id, will_flag := will_flag, will_qos := will_qos
           will_retain := will_retain, will_topic := will_topic
           will_message := some will_message }

/-- Modelled from the spec: the is_will_flag accessor of section 4.2. -/
def ServerSession.is_will_flag (s : ServerSession) : Bool :=
  s.will_flag = MqttWillFlag.Enable

/-! ## Inflight store (MESSAGE_CONTAINER) -/

/-- MessageFrame, field list taken from the constructor call in
src/handle/v3_server_handle.rs lines 67..72: origin client, destination
client, payload bytes, packet identifier (src/container.rs is not under
src/). -/
structure MessageFrame where
  from_id : String
  to_id : String
  bytes : List Nat
  message_id : Nat
  deriving DecidableEq, Repr

/-- One client's inflight table: packet identifier to frame. -/
abbrev MsgTable := List (Nat × MessageFrame)

/-- Modelled from the spec: the process-wide inflight store of section
4.3, client id to table. -/
abbrev MsgContainer := List (String × MsgTable)

namespace MsgContainer

/-- Look up the table of one client. -/
def getTable (c : MsgContainer) (client_id : String) : Option MsgTable :=
  (c.find? (fun e => e.1 = client_id)).map (·.2)

/-- Replace the table of one client (no change when absent). -/
def setTable (c : MsgContainer) (client_id : String) (t : MsgTable) : MsgContainer :=
  c.map (fun e => if e.1 = client_id then (e.1, t) else e)

/-- Modelled from the spec: init of section 4.3: ensure a table exists
for this client; idempotent. -/
def init (c : MsgContainer) (client_id : String) : MsgContainer :=
  if (getTable c client_id).isSome then c else (client_id, []) :: c

/-- Modelled from the spec: append of section 4.3: insert the entry
keyed by packet identifier, overwriting a duplicate; the table is
created when absent. -/
def append (c : MsgContainer) (client_id : String) (message_id : Nat)
    (frame : MessageFrame) : MsgContainer :=
  match getTable c client_id with
  | some t =>
    setTable c client_id ((message_id, frame) :: t.filter (fun e => e.1 ≠ message_id))
  | none => (client_id, [(message_id, frame)]) :: c

/-- Modelled from the spec: contains of section 4.3. -/
def contains (c : MsgContainer) (client_id : String) (message_id : Nat) : Bool :=
  match getTable c client_id with
  | some t => t.any (fun e => e.1 = message_id)
  | none => false

/-- Modelled from the spec: complete of section 4.3: remove the entry; a
missing entry is not an error. -/
def complete (c : MsgContainer) (client_id : String) (message_id : Nat) : MsgContainer :=
  match getTable c client_id with
  | some t => setTable c client_id (t.filter (fun e => e.1 ≠ message_id))
  | none => c

/-- Modelled from the spec: remove of section 4.3: drop the entire
table of one client. -/
def remove (c : MsgContainer) (client_id : String) : MsgContainer :=
  c.filter (fun e => e.1 ≠ client_id)

end MsgContainer

/-! ## Subscription registry (SUBSCRIPT) -/

/-- Modelled from the spec: the process-wide subscription registry of
sections 2 and 4.4, topic filter to the set of subscriber client ids
(src/subscript.rs is not under src/). -/
abbrev SubRegistry := List (String × List String)

namespace SubRegistry

/-- Modelled from the spec: contain — is the topic present. -/
def contain (r : SubRegistry) (topic : String) : Bool :=
  r.any (fun e => e.1 = topic)

/-- Modelled from the spec: is_subscript — is this client subscribed to
this topic. -/
def is_subscript (r : SubRegistry) (topic : String) (client_id : String) : Bool :=
  r.any (fun e => e.1 = topic ∧ client_id ∈ e.2)

/-- Modelled from the spec: unsubscript — remove one client from one
topic; no error when the pair is absent. -/
def unsubscript (r : SubRegistry) (topic : String) (client_id : String) : SubRegistry :=
  r.map (fun e => if e.1 = topic then (e.1, e.2.filter (fun c => c ≠ client_id)) else e)

/-- Modelled from the spec: exit — remove every subscription of one
client. -/
def exit (r : SubRegistry) (client_id : String) : SubRegistry :=
  r.map (fun e => (e.1, e.2.filter (fun c => c ≠ client_id)))

end SubRegistry

/-! ## Handler -/

/-- The shared broker state the handler mutates: the inflight store and
the subscription registry. -/
structure BrokerState where
  container : MsgContainer
  subscript : SubRegistry
  deriving DecidableEq, Repr

/-- Calls the handler makes into the subscription registry that carry a
message out of the handler: a broadcast of a will message (topic and
payload), and the registry exit call.  A broadcast of forwarded PUBLISH
content is a separate constructor so that its absence in a trace is
expressible. -/
inductive BrokerEffect where
  | broadcastWill (topic : String) (message : String)
  | broadcastContent (topic : String) (content : PublishMessage)
  | subscriptExit (client_id : String)
  deriving DecidableEq, Repr

/-- ReturnKind, from src/executor.rs (declaration only; the handler in
src/handle/v3_server_handle.rs constructs Response and Exit). -/
inductive ReturnKind where
  | Response (bytes : MqttMessageV3)
  | Exit
  deriving DecidableEq, Repr

/-- ServerHandler::init_session, src/handle/v3_server_handle.rs lines
100..117: on a decoded CONNECT, init the protocol fields, then init the
session, unwrapping the optional will_topic and will_message of the
payload — the unwrap panics when either is None (outcome none) — and
init the inflight table of the client.  Every other request leaves the
session and the store unchanged. -/
def init_session (s : ServerSession) (c : MsgContainer)
    (v3_request : Option MqttMessageKind) : Option (ServerSession × MsgContainer) :=
  match v3_request with
  | some (.RequestV3 (.Connect connect_msg)) =>
    let s1 := s.init_protocol connect_msg.protocol_name connect_msg.protocol_level
    match connect_msg.payload.will_topic, connect_msg.payload.will_message with
    | some wt, some wm =>
      let s2 := s1.init connect_msg.payload.client_id connect_msg.will_flag
        connect_msg.will_qos connect_msg.will_retain wt wm
      some (s2, c.init connect_msg.payload.client_id)
    | _, _ => none
  | _ => some (s, c)

/-- ServerHandler::handle_v3_request, src/handle/v3_server_handle.rs
lines 119..158, as a function from session, broker state and decoded
request to the new broker state and the trace of registry calls that
carry messages out.  The arms that only stamp protocol_level into the
request are identity here: the message structs in src/message/v3.rs
carry no protocol_level field, and the stamp touches neither registries
nor outputs. -/
def handle_v3_request (s : ServerSession) (st : BrokerState)
    (v3_request : Option MqttMessageKind) : BrokerState × List BrokerEffect :=
  match v3_request with
  | some (.RequestV3 v3) =>
    match v3 with
    | .Unsubscribe msg =>
      if SubRegistry.contain st.subscript msg.topic &&
          SubRegistry.is_subscript st.subscript msg.topic s.client_id then
        ({ st with subscript := SubRegistry.unsubscript st.subscript msg.topic s.client_id }, [])
      else (st, [])
    | .Pubrel msg =>
      ({ st with container := MsgContainer.complete st.container s.client_id msg.message_id }, [])
    | .Disconnect _ =>
      let willEffects : List BrokerEffect :=
        if s.is_will_flag then
          match s.will_message with
          | some topic_msg => [BrokerEffect.broadcastWill s.will_topic topic_msg]
          | none => []
        else []
      let st1 := { st with subscript := SubRegistry.exit st.subscript s.client_id }
      let st2 :=
        if s.clean_session = some MqttCleanSession.Enable then
          { st1 with container := MsgContainer.remove st1.container s.client_id }
        else st1
      (st2, willEffects ++ [BrokerEffect.subscriptExit s.client_id])
    | _ => (st, [])
  | _ => (st, [])

/-- The BroadcastEvent arm of ServerHandler::execute,
src/handle/v3_server_handle.rs lines 59..82: when content.qos is QoS 2,
append an inflight frame for the receiving client — unwrapping
content.bytes, which panics (outcome none) when the cache is None —
then emit the encoded PUBLISH as a Response unless the event came from
this same client. -/
def handleBroadcastEvent (s : ServerSession) (c : MsgContainer)
    (from_id : String) (content : PublishMessage) :
    Option (MsgContainer × Option ReturnKind) :=
  let client_id := s.client_id
  let step1 : Option MsgContainer :=
    if content.qos = MqttQos.Qos2 then
      match content.bytes with
      | some b =>
        some (MsgContainer.append c client_id content.message_id
          { from_id := from_id, to_id := client_id, bytes := b
            message_id := content.message_id })
      | none => none
    else some c
  match step1 with
  | some c1 =>
    if client_id ≠ from_id then
      some (c1, some (ReturnKind.Response (MqttMessageV3.Publish content)))
    else some (c1, none)
  | none => none

/-- The ExitEvent arm of ServerHandler::execute,
src/handle/v3_server_handle.rs lines 83..91: broadcast the will only
when the event asks for it and the session has one, then leave the
registry and return Exit. -/
def handleExitEvent (s : ServerSession) (st : BrokerState) (will : Bool) :
    BrokerState × List BrokerEffect × ReturnKind :=
  let willEffects : List BrokerEffect :=
    if will && s.is_will_flag then
      match s.will_message with
      | some topic_msg => [BrokerEffect.broadcastWill s.will_topic topic_msg]
      | none => []
    else []
  ({ st with subscript := SubRegistry.exit st.subscript s.client_id },
   willEffects ++ [BrokerEffect.subscriptExit s.client_id],
   ReturnKind.Exit)

/-- Modelled from the spec: the response-producing layer of section 4.5
(the callback around the Handler loop, not under src/): the outbound
control packet answering one decoded v3 request.  The per-type
conversions are the From implementations of src/message/v3.rs; PINGREQ
already decodes to a ready PINGRESP in src/message/mod.rs line 74. -/
def v3_server_response (req : MqttMessageV3) : Option MqttMessageV3 :=
  match req with
  | .Connect _ => some (.Connack { msg_type := .CONNACK, session_present := .Disable, return_code := 0 })
  | .Publish m =>
    match m.qos with
    | .Qos1 => some (.Puback (PubackMessage.new m.message_id))
    | .Qos2 => some (.Pubrec (PubrecMessage.new m.message_id))
    | _ => none
  | .Pubrec m => some (.Pubrel (PubrelMessage.fromPubrec m))
  | .Pubrel m => some (.Pubcomp (PubcompMessage.fromPubrel m))
  | .Subscribe m => some (.Suback (SubackMessage.fromSubscribe m))
  | .Unsubscribe m => some (.Unsuback (UnsubackMessage.new m.message_id))
  | .Pingresp m => some (.Pingresp m)
  | _ => none

/-! ## Helper lemmas -/

/-- Removing a client from the inflight store removes its table. -/
theorem MsgContainer.getTable_remove_self (c : MsgContainer) (client_id : String) :
    MsgContainer.getTable (MsgContainer.remove c client_id) client_id = none := by
  induction c with
  | nil => rfl
  | cons e t ih =>
    by_cases h : e.1 = client_id
    · simp [MsgContainer.remove, MsgContainer.getTable, h, ih]
    · simp [MsgContainer.remove, MsgContainer.getTable, h, ih]

/-! ## Claims -/

/-- Claim C1: on a clean DISCONNECT the broker must never broadcast the
will message.  The source violates this: the DISCONNECT arm of
handle_v3_request broadcasts the will whenever will_flag is set.  At a
session with will_flag Enable, will_topic "bye" and will_message "gone",
processing a DISCONNECT emits the broadcast of the will. -/
theorem c1_disconnect_broadcasts_will :
    (handle_v3_request
      { ServerSession.new with client_id := "a", will_flag := .Enable
                               will_topic := "bye", will_message := some "gone" }
      { container := [], subscript := [] }
      (some (.RequestV3 (.Disconnect DisconnectMessage.default)))).2
    = [BrokerEffect.broadcastWill "bye" "gone", BrokerEffect.subscriptExit "a"] := by
  rfl

/-- Claim C2, counterexample: the claim says PUBREL triggers the
broadcast of the completed incoming QoS 2 entry.  With client "c"
holding inflight entry 9 and a live subscriber on topic "t", processing
PUBREL(9) removes the entry but the effect trace is empty: no broadcast
of any kind occurs. -/
theorem c2_pubrel_no_broadcast_cex :
    handle_v3_request
      { ServerSession.new with client_id := "c" }
      { container := [("c", [(9, { from_id := "c", to_id := "c"
                                   bytes := [104, 105], message_id := 9 })])]
        subscript := [("t", ["a"])] }
      (some (.RequestV3 (.Pubrel (PubrelMessage.new 9))))
    = ({ container := [("c", [])], subscript := [("t", ["a"])] }, []) := by
  rfl

/-- Claim C2, amended: on PUBREL with identifier m from client c the
Handler removes the inflight entry (c, m) and the response layer emits
PUBCOMP(m); the completed entry is not broadcast at PUBREL time — its
content is discarded. -/
theorem c2_pubrel_complete_and_pubcomp (s : ServerSession) (st : BrokerState)
    (msg : PubrelMessage) :
    handle_v3_request s st (some (.RequestV3 (.Pubrel msg)))
      = ({ st with container := MsgContainer.complete st.container s.client_id msg.message_id }, [])
    ∧ v3_server_response (.Pubrel msg)
      = some (.Pubcomp (PubcompMessage.new msg.message_id)) :=
  ⟨rfl, rfl⟩

/-- Claim C3: a PUBLISH is never delivered to its own originator through
a subscription: processing a BroadcastEvent whose from_id equals the
handler client id never produces an outbound Response. -/
theorem c3_no_self_echo (s : ServerSession) (c : MsgContainer) (from_id : String)
    (content : PublishMessage) (h : from_id = s.client_id) :
    ∀ c1 out, handleBroadcastEvent s c from_id content = some (c1, out) → out = none := by
  intro c1 out hres
  subst h
  unfold handleBroadcastEvent at hres
  dsimp only at hres
  split at hres
  · rw [if_neg (by simp)] at hres
    simp only [Option.some.injEq, Prod.mk.injEq] at hres
    exact hres.2.symm
  · exact absurd hres (by simp)

def c3_session : ServerSession := { ServerSession.new with client_id := "a" }

def c3_content : PublishMessage :=
  { msg_type := .PUBLISH, message_id := 0, topic := "t", dup := .Disable
    qos := .Qos0, retain := .Disable, msg_body := "hi", bytes := none }

/-- Witness for claim C3 at a concrete self-addressed event. -/
theorem c3_no_self_echo_witness :
    ("a" : String) = c3_session.client_id ∧ (none : Option ReturnKind) = none :=
  ⟨rfl, c3_no_self_echo c3_session [] "a" c3_content rfl [] none (by rfl)⟩

/-- Claim C4, counterexample: the claim says a self-addressed
BroadcastEvent is dropped before any state change, with no inflight
entry appended.  With client "a" receiving its own QoS 2 content with
identifier 5, the handler does append an inflight entry for ("a", 5)
even though it emits no Response. -/
theorem c4_self_qos2_append_cex :
    handleBroadcastEvent { ServerSession.new with client_id := "a" } [] "a"
      { msg_type := .PUBLISH, message_id := 5, topic := "t", dup := .Disable
        qos := .Qos2, retain := .Disable, msg_body := "", bytes := some [1, 2] }
    = some ([("a", [(5, { from_id := "a", to_id := "a", bytes := [1, 2], message_id := 5 })])], none)
    ∧ MsgContainer.contains
        [("a", [(5, { from_id := "a", to_id := "a", bytes := [1, 2], message_id := 5 })])] "a" 5
      = true := by
  exact ⟨rfl, rfl⟩

/-- Claim C4, amended: the self-check governs only the outbound PUBLISH.
When content.qos is not QoS 2 the container is unchanged; when it is
QoS 2 and the byte cache is present, an inflight entry keyed by the
message identifier is appended for the receiving client regardless of
from_id; in both cases a Response is emitted exactly when from_id
differs from the handler client id. -/
theorem c4_broadcast_event_frame_amended (s : ServerSession) (c : MsgContainer)
    (from_id : String) (content : PublishMessage) :
    (content.qos ≠ MqttQos.Qos2 →
      handleBroadcastEvent s c from_id content
        = some (c, if s.client_id ≠ from_id
                   then some (ReturnKind.Response (MqttMessageV3.Publish content))
                   else none))
  ∧ (∀ b, content.qos = MqttQos.Qos2 → content.bytes = some b →
      handleBroadcastEvent s c from_id content
        = some (MsgContainer.append c s.client_id content.message_id
                  { from_id := from_id, to_id := s.client_id, bytes := b
                    message_id := content.message_id },
                if s.client_id ≠ from_id
                then some (ReturnKind.Response (MqttMessageV3.Publish content))
                else none)) := by
  constructor
  · intro hq
    simp [handleBroadcastEvent, hq]
    split <;> rfl
  · intro b hq hb
    simp [handleBroadcastEvent, hq, hb]
    split <;> rfl

def c4_session : ServerSession := { ServerSession.new with client_id := "b" }

def c4_content : PublishMessage :=
  { msg_type := .PUBLISH, message_id := 5, topic := "t", dup := .Disable
    qos := .Qos2, retain := .Disable, msg_body := "", bytes := some [1, 2] }

/-- Witness for the amended claim C4 at a concrete QoS 2 event from
another client. -/
theorem c4_broadcast_event_frame_amended_witness :
    c4_content.qos = MqttQos.Qos2 ∧ c4_content.bytes = some [1, 2] ∧
    handleBroadcastEvent c4_session [] "a" c4_content
      = some (MsgContainer.append [] c4_session.client_id c4_content.message_id
                { from_id := "a", to_id := c4_session.client_id, bytes := [1, 2]
                  message_id := c4_content.message_id },
              if c4_session.client_id ≠ "a"
              then some (ReturnKind.Response (MqttMessageV3.Publish c4_content))
              else none) :=
  ⟨rfl, rfl,
    (c4_broadcast_event_frame_amended c4_session [] "a" c4_content).2 [1, 2] rfl rfl⟩

/-- Claim C5: after processing a DISCONNECT, the inflight table of the
session client id is gone when clean_session is Enable, and the whole
inflight store is untouched when clean_session is Disable or unset. -/
theorem c5_disconnect_inflight (s : ServerSession) (st : BrokerState)
    (msg : DisconnectMessage) :
    (s.clean_session = some MqttCleanSession.Enable →
      MsgContainer.getTable
        (handle_v3_request s st (some (.RequestV3 (.Disconnect msg)))).1.container
        s.client_id = none)
  ∧ (s.clean_session ≠ some MqttCleanSession.Enable →
      (handle_v3_request s st (some (.RequestV3 (.Disconnect msg)))).1.container
        = st.container) := by
  constructor
  · intro h
    simp [handle_v3_request, h, MsgContainer.getTable_remove_self]
  · intro h
    simp [handle_v3_request, h]

def c5_session : ServerSession :=
  { ServerSession.new with client_id := "a", clean_session := some MqttCleanSession.Enable }

def c5_state : BrokerState :=
  { container := [("a", [(3, { from_id := "b", to_id := "a", bytes := [7], message_id := 3 })])]
    subscript := [] }

/-- Witness for claim C5 at a concrete clean session holding an inflight
entry. -/
theorem c5_disconnect_inflight_witness :
    c5_session.clean_session = some MqttCleanSession.Enable ∧
    MsgContainer.getTable
      (handle_v3_request c5_session c5_state
        (some (.RequestV3 (.Disconnect DisconnectMessage.default)))).1.container
      c5_session.client_id = none :=
  ⟨rfl, (c5_disconnect_inflight c5_session c5_state DisconnectMessage.default).1 rfl⟩

/-- Claim C6: a SUBSCRIBE packet with n (topic, qos) pairs decodes to n
SUBSCRIBE requests, and the batch produces a single SUBACK that keeps
the packet identifier and carries the n return codes in the order of
the original topics. -/
theorem c6_subscribe_batch_suback (message_id : Nat) (pairs : List (String × MqttQos)) :
    (match mqttMessageKind_v3_subscribe message_id pairs with
      | MqttMessageKind.RequestsV3 l => l.length
      | _ => 0) = pairs.length
  ∧ (handle_subscribe_batch message_id (v3_unpacket_subscribe message_id pairs)).message_id
      = message_id
  ∧ (handle_subscribe_batch message_id (v3_unpacket_subscribe message_id pairs)).codes
      = pairs.map (fun p => if p.2.asByte < 3 then p.2.asByte else MqttQos.Failure.asByte) := by
  refine ⟨by simp [mqttMessageKind_v3_subscribe, v3_unpacket_subscribe], rfl, ?_⟩
  induction pairs with
  | nil => rfl
  | cons p t ih =>
    simp [handle_subscribe_batch, v3_unpacket_subscribe, SubackMessage.fromSubscribe] at ih ⊢
    split <;> simp [ih]

/-- Claim C7: the SUBACK built from a SubscribeMessage preserves the
message identifier, and its return code is the requested QoS byte when
that QoS is 0, 1 or 2 and the Failure byte 0x80 otherwise. -/
theorem c7_suback_from_subscribe (smsg : SubscribeMessage) :
    (SubackMessage.fromSubscribe smsg).message_id = smsg.message_id
  ∧ (smsg.qos ≠ MqttQos.Failure →
      (SubackMessage.fromSubscribe smsg).codes = [smsg.qos.asByte])
  ∧ (smsg.qos = MqttQos.Failure →
      (SubackMessage.fromSubscribe smsg).codes = [128]) := by
  refine ⟨rfl, ?_, ?_⟩ <;>
    { intro h
      cases hq : smsg.qos <;>
        simp [SubackMessage.fromSubscribe, MqttQos.asByte, hq] <;>
        simp [hq] at h }

def c7_smsg : SubscribeMessage :=
  { msg_type := .SUBSCRIBE, message_id := 7, topic := "t", qos := .Qos1 }

/-- Witness for claim C7 at a concrete QoS 1 subscription. -/
theorem c7_suback_from_subscribe_witness :
    c7_smsg.qos ≠ MqttQos.Failure ∧
    (SubackMessage.fromSubscribe c7_smsg).codes = [c7_smsg.qos.asByte] :=
  ⟨by decide, (c7_suback_from_subscribe c7_smsg).2.1 (by decide)⟩

/-- Claim C8: on UNSUBSCRIBE, the registry unsubscribe runs exactly when
the registry holds the topic and this client is subscribed to it, and
the response layer emits UNSUBACK with the same message identifier in
every case. -/
theorem c8_unsubscribe_unsuback (s : ServerSession) (st : BrokerState)
    (msg : UnsubscribeMessage) :
    handle_v3_request s st (some (.RequestV3 (.Unsubscribe msg)))
      = (if SubRegistry.contain st.subscript msg.topic &&
            SubRegistry.is_subscript st.subscript msg.topic s.client_id
         then ({ st with subscript := SubRegistry.unsubscript st.subscript msg.topic s.client_id }, [])
         else (st, []))
  ∧ v3_server_response (.Unsubscribe msg)
      = some (.Unsuback (UnsubackMessage.new msg.message_id)) :=
  ⟨rfl, rfl⟩

/-- Claim C9: the claim says no malformed input can panic past the
Handler loop.  The source violates this: an InputEvent whose first byte
has upper nibble 0 makes BaseMessage::from unwrap a None packet type,
which panics.  The bytes [0, 0] are such an input: the fixed-header
decode yields no type and the conversion has no non-panicking result. -/
theorem c9_malformed_input_panics :
    BaseMessage.fromBytes [0, 0] = none
  ∧ get_type [0, 0] = (none, none, none, none, [0]) :=
  ⟨rfl, rfl⟩

/-- Claim C10: the claim says init_session is total on every decoded
CONNECT, with or without will fields.  The source violates this: it
unwraps payload.will_topic and payload.will_message, so a CONNECT with
will_flag unset and no will fields panics (outcome none). -/
theorem c10_init_session_panics_without_will :
    init_session ServerSession.new []
      (some (.RequestV3 (.Connect
        { msg_type := .CONNECT, protocol_name := "MQTT", protocol_level := .Level4
          clean_session := .Enable, will_flag := .Disable, will_qos := .Qos0
          will_retain := .Disable, keep_alive := 60
          payload := { client_id := "a", will_topic := none, will_message := none
                       user_name := none, password := none } }))) = none :=
  rfl

end MqttDemo
